import Mathlib

/-!
# Verification of the pytd writer module (`pytd/writer.py`)

A shallow embedding of the three writer strategies of `pytd/writer.py`:
the row-insertion writer (`InsertIntoWriter`), the bulk-file writer
(`BulkImportWriter`) and the distributed-engine writer (`SparkWriter`).

Each writer is modelled as a pure function from its inputs (table handle,
payload, conflict policy, and a record describing the responses of the
external systems it talks to) to a `Result`: the ordered list of calls the
writer issues against the table handle / remote protocols, together with an
optional Python exception.  Remote-system behaviour (bulk-import record
counts, upload failures, the Spark engine raising `Py4JJavaError`) is an
explicit input, since it is external to the module.
-/

/-- A Python exception raised by the writer module, by class and message. -/
inductive PyErr where
  | runtimeError (msg : String)
  | valueError (msg : String)
  | permissionError (msg : String)
deriving Repr, DecidableEq

/-- `table.client` as consumed by the writers: the credential identity. -/
structure Client where
  apikey : String
  endpoint : String
deriving Repr, DecidableEq

/-- The `pytd.table.Table` handle as consumed by the writers: destination
name, the `exist` property, and the owning client. -/
structure Table where
  database : String
  table : String
  exist : Bool
  client : Client
deriving Repr, DecidableEq

/-- An observable call issued by a writer against the table handle or a
remote protocol (the external interfaces of the module). -/
inductive Call where
  | tableDelete
  | tableCreate (schema : Option (List String × List String))
  | query (sql : String) (engine : String)
  | createBulkImport (session : String) (db : String) (tbl : String)
  | uploadFile (part : String) (fmt : String)
  | freeze
  | biPerform (wait : Bool)
  | biCommit (wait : Bool)
  | biDelete
  | fetchTdSpark (apikey : String) (endpoint : String)
  | engineWrite (mode : String) (table : String)
deriving Repr, DecidableEq

/-- Outcome of one writer call: the calls issued, in order, and the
exception raised (`none` = the call returned normally). -/
structure Result where
  trace : List Call
  err : Option PyErr
deriving Repr, DecidableEq

/-- A scalar cell of a pandas DataFrame.  The writers only distinguish
`str` values from everything else, and use non-`str` values solely through
their `str(e)` rendering, which `other` carries. -/
inductive Py where
  | str (s : String)
  | other (strForm : String)
deriving Repr, DecidableEq

/-- One named, dtyped column of a pandas DataFrame. -/
structure Column where
  name : String
  dtype : String
  values : List Py
deriving Repr, DecidableEq

/-- A pandas DataFrame: an ordered list of columns. -/
abbrev DataFrame := List Column

/-- Number of rows of a DataFrame (all columns have equal length). -/
def nrows (df : DataFrame) : Nat :=
  match df with
  | [] => 0
  | c :: _ => c.values.length

/-- The common dtype to which pandas `DataFrame.values` consolidates a
frame with mixed column dtypes (only int64, float64 and object occur
after the writer's per-column loop): object when any column is
non-numeric, else float64 when any column is float64, else int64. -/
def commonDtype (df : DataFrame) : String :=
  if df.any (fun c => !(c.dtype == "int64" || c.dtype == "float64")) then "object"
  else if df.any (fun c => c.dtype == "float64") then "float64"
  else "int64"

/-- Effect of the `DataFrame.values` consolidation on a single cell:
when the common dtype is float64, a cell of an int64 column becomes a
Python float, whose `str` rendering gains a trailing ".0" (faithful for
int64 magnitudes below 10^16, where float rendering stays positional);
every other combination leaves the cell's rendering unchanged (under the
object common dtype, numeric cells keep their scalar rendering). -/
def upcastCell (common : String) (colDtype : String) (v : Py) : Py :=
  if common == "float64" && colDtype == "int64" then
    match v with
    | .str s => .str s
    | .other r => .other (r ++ ".0")
  else v

/-- `dataframe.values.tolist()`: the row-major view of the columns,
after consolidation of all cells to the frame's common dtype. -/
def dfRows (df : DataFrame) : List (List Py) :=
  (List.range (nrows df)).map (fun i =>
    df.map (fun c => upcastCell (commonDtype df) c.dtype (c.values.getD i (.str ""))))

/-- A single-quote character, as a string. -/
def squote : String := String.singleton (Char.ofNat 39)

/-- A double-quote character, as a string. -/
def dquote : String := String.singleton (Char.ofNat 34)

/-- Python `e.replace("'", chr(34))`: the pattern being the single
character `'`, the call is pointwise replacement of every single-quote
character by a double-quote character. -/
def replaceQuotes (s : String) : String :=
  String.mk (s.data.map (fun ch => if ch = Char.ofNat 39 then Char.ofNat 34 else ch))

namespace InsertIntoWriter

/-- Rendering of one cell in the `VALUES` literal (writer.py lines
122-129): a `str` value is single-quoted with embedded single quotes
rewritten to double quotes; any other value renders as `str(e)`. -/
def renderElem : Py → String
  | .str s => squote ++ replaceQuotes s ++ squote
  | .other r => r

/-- One row of the `VALUES` literal: parenthesized, comma-joined cells. -/
def renderRow (lst : List Py) : String :=
  "(" ++ String.intercalate ", " (lst.map renderElem) ++ ")"

/-- The batched `INSERT INTO` Presto query issued at writer.py lines
119-138. -/
def insertQuery (t : Table) (list_of_list : List (List Py)) (column_names : List String) : Call :=
  .query ("INSERT INTO " ++ t.database ++ "." ++ t.table ++ " ("
      ++ String.intercalate ", " column_names ++ ") VALUES "
      ++ String.intercalate ", " (list_of_list.map renderRow)) "presto"

/-- `InsertIntoWriter.insert_into` (writer.py lines 74-138): the conflict
policy is interpreted only when `table.exist` holds; an absent table is
created with the inferred schema regardless of the policy, then one batched
INSERT is issued. -/
def insert_into (t : Table) (list_of_list : List (List Py))
    (column_names column_types : List String) (if_exists : String) : Result :=
  if t.exist then
    if if_exists == "error" then
      ⟨[], some (.runtimeError "target table already exists")⟩
    else if if_exists == "ignore" then
      ⟨[], none⟩
    else if if_exists == "append" then
      ⟨[insertQuery t list_of_list column_names], none⟩
    else if if_exists == "overwrite" then
      ⟨[.tableDelete, .tableCreate (some (column_names, column_types)),
        insertQuery t list_of_list column_names], none⟩
    else
      ⟨[], some (.valueError ("invalid valud for if_exists: " ++ if_exists))⟩
  else
    ⟨[.tableCreate (some (column_names, column_types)),
      insertQuery t list_of_list column_names], none⟩

/-- Per-column step of the loop at writer.py lines 59-68: returns the
(possibly `astype(str)`-converted) column together with its inferred Presto
type. -/
def processCol (c : Column) : Column × String :=
  if c.dtype == "int64" then (c, "bigint")
  else if c.dtype == "float64" then (c, "double")
  else (⟨c.name, "object", c.values.map (fun v =>
    match v with
    | .str s => .str s
    | .other r => .str r)⟩, "varchar")

/-- `InsertIntoWriter.write_dataframe` (writer.py lines 41-72).  Returns
the DataFrame as it stands after the call (the loop mutates the caller's
object in place) together with the result of `insert_into`. -/
def write_dataframe (df : DataFrame) (t : Table) (if_exists : String) :
    DataFrame × Result :=
  let processed := df.map processCol
  let df2 : DataFrame := processed.map Prod.fst
  let column_names := df.map Column.name
  let column_types := processed.map Prod.snd
  (df2, insert_into t (dfRows df2) column_names column_types if_exists)

end InsertIntoWriter

/-- Responses of the remote bulk-import protocol during one
`bulk_import` call: whether `upload_file` or `freeze` raises (and with
what message), and the record counts and session name read back after
`perform`. -/
structure BIEnv where
  uploadErr : Option String
  freezeErr : Option String
  error_records : Nat
  valid_records : Nat
  biName : String
deriving Repr, DecidableEq

namespace BulkImportWriter

/-- The session phase of `BulkImportWriter.bulk_import` (writer.py lines
205-231), entered after the conflict-policy phase issued the calls `pre`:
create the session, upload and freeze (deleting the session and wrapping
the exception on failure), perform, then commit-and-delete when any
records were valid, else raise without deleting. -/
def biRun (t : Table) (now : Int) (env : BIEnv) (pre : List Call) : Result :=
  let sname := "session-" ++ toString now
  let tr0 := pre ++ [.createBulkImport sname t.database t.table, .uploadFile "part" "csv"]
  match env.uploadErr with
  | some e => ⟨tr0 ++ [.biDelete], some (.runtimeError ("failed to upload file: " ++ e))⟩
  | none =>
    let tr1 := tr0 ++ [.freeze]
    match env.freezeErr with
    | some e => ⟨tr1 ++ [.biDelete], some (.runtimeError ("failed to upload file: " ++ e))⟩
    | none =>
      let tr2 := tr1 ++ [.biPerform true]
      if 0 < env.valid_records then
        ⟨tr2 ++ [.biCommit true, .biDelete], none⟩
      else
        ⟨tr2, some (.runtimeError ("no records have been imported: " ++ env.biName))⟩

/-- `BulkImportWriter.bulk_import` (writer.py lines 174-231): conflict
policies are interpreted only when `table.exist` holds (with `append`
rejected there); an absent table is created regardless of the policy, and
then the bulk-import session runs. -/
def bulk_import (t : Table) (now : Int) (if_exists : String) (env : BIEnv) : Result :=
  if t.exist then
    if if_exists == "error" then
      ⟨[], some (.runtimeError "target table already exists")⟩
    else if if_exists == "ignore" then
      ⟨[], none⟩
    else if if_exists == "append" then
      ⟨[], some (.valueError "Bulk import API does not support `append`")⟩
    else if if_exists == "overwrite" then
      biRun t now env [.tableDelete, .tableCreate none]
    else
      ⟨[], some (.valueError ("invalid valud for if_exists: " ++ if_exists))⟩
  else
    biRun t now env [.tableCreate none]

/-- `BulkImportWriter.write_dataframe` (writer.py lines 146-172): a `time`
column holding the current unix time is appended when no column of that
name is present, then the frame is staged to CSV and `bulk_import` runs.
Returns the DataFrame as it stands after the call (the `time` assignment
mutates the caller's object) with the result.  CSV staging itself issues
no call against the table or the remote protocol and is not modelled. -/
def write_dataframe (df : DataFrame) (now : Int) (t : Table)
    (if_exists : String) (env : BIEnv) : DataFrame × Result :=
  let df2 : DataFrame :=
    if df.any (fun c => c.name == "time") then df
    else df ++ [⟨"time", "int64", List.replicate (nrows df) (.other (toString now))⟩]
  (df2, bulk_import t now if_exists env)

end BulkImportWriter

/-- The memoized PySpark session held by a `SparkWriter`: the writer only
observes whether it has been stopped. -/
structure SparkSession where
  stopped : Bool
deriving Repr, DecidableEq

/-- The mutable state of a `SparkWriter` instance (writer.py lines
247-252): the memoized session and the identity it was fetched with. -/
structure SparkWriter where
  td_spark : Option SparkSession
  fetched_apikey : String
  fetched_endpoint : String
deriving Repr, DecidableEq

/-- Responses of the external systems during one
`SparkWriter.write_dataframe` call: whether `_fetch_td_spark` raises, and
whether the engine `save()` raises a `Py4JJavaError` (carrying the string
of the underlying Java exception). -/
structure SparkEnv where
  fetchErr : Option String
  saveJavaErr : Option String
deriving Repr, DecidableEq

/-- `s.count(pat) > 0` — whether `pat` occurs in `s` (Python `in`). -/
def containsSubstr (s pat : String) : Bool := (s.splitOn pat).length != 1

/-- The four-value conflict-policy vocabulary checked at writer.py line
272. -/
def validIfExists (p : String) : Bool :=
  p == "error" || p == "overwrite" || p == "append" || p == "ignore"

/-- The identity-mismatch message of writer.py lines 290-293 (the source
concatenates two string literals with no separating space). -/
def mismatchMsg : String :=
  "given Table instance and SparkSession have different apikeyand/or endpoint. Create and use a new SparkWriter instance."

namespace SparkWriter

/-- A freshly constructed `SparkWriter` (writer.py lines 247-252). -/
def init : SparkWriter := ⟨none, "", ""⟩

/-- The condition of writer.py line 275: the session is absent or its
Spark context reports stopped. -/
def sessionNeedsFetch (w : SparkWriter) : Bool :=
  match w.td_spark with
  | none => true
  | some s => s.stopped

/-- The write phase of `SparkWriter.write_dataframe` (writer.py lines
295-310): the engine write with the conflict policy as the mode; a
`Py4JJavaError` mentioning `API_ACCESS_FAILURE` becomes a
`PermissionError`, any other one a wrapped `RuntimeError`. -/
def saveStep (w : SparkWriter) (t : Table) (if_exists : String)
    (env : SparkEnv) (pre : List Call) : SparkWriter × Result :=
  let tr := pre ++ [.engineWrite if_exists (t.database ++ "." ++ t.table)]
  match env.saveJavaErr with
  | none => (w, ⟨tr, none⟩)
  | some e =>
    if containsSubstr e "API_ACCESS_FAILURE" then
      (w, ⟨tr, some (.permissionError
        "failed to access to Treasure Data Plazma API.Contact customer support to enable access rights.")⟩)
    else
      (w, ⟨tr, some (.runtimeError ("failed to load table via td-spark: " ++ e))⟩)

/-- `SparkWriter.write_dataframe` (writer.py lines 254-310): validate the
policy against the full four-value vocabulary, then (re)create the session
when absent or stopped (recording the identity), reject a differing
identity on an active session, and finally write through the engine.
Returns the writer state after the call with the result. -/
def write_dataframe (w : SparkWriter) (t : Table) (if_exists : String)
    (env : SparkEnv) : SparkWriter × Result :=
  if !(validIfExists if_exists) then
    (w, ⟨[], some (.valueError ("invalid valud for if_exists: " ++ if_exists))⟩)
  else if sessionNeedsFetch w then
    match env.fetchErr with
    | some e => (w, ⟨[], some (.runtimeError e)⟩)
    | none =>
      let w2 : SparkWriter := ⟨some ⟨false⟩, t.client.apikey, t.client.endpoint⟩
      saveStep w2 t if_exists env [.fetchTdSpark t.client.apikey t.client.endpoint]
  else if t.client.apikey != w.fetched_apikey || t.client.endpoint != w.fetched_endpoint then
    (w, ⟨[], some (.valueError mismatchMsg)⟩)
  else
    saveStep w t if_exists env []

/-- `SparkWriter.close` (writer.py lines 312-316): stop the session when
one is held. -/
def close (w : SparkWriter) : SparkWriter :=
  match w.td_spark with
  | none => w
  | some _ => ⟨some ⟨true⟩, w.fetched_apikey, w.fetched_endpoint⟩

end SparkWriter

/-! ## Shared concrete fixtures -/

/-- An absent destination table. -/
def tAbs : Table := ⟨"mydb", "mytab", false, ⟨"K1", "E1"⟩⟩

/-- An existing destination table. -/
def tEx : Table := ⟨"mydb", "mytab", true, ⟨"K1", "E1"⟩⟩

/-- A bulk-import environment where every remote step succeeds. -/
def envOkFx : BIEnv := ⟨none, none, 0, 5, "session-100"⟩

/-- A bulk-import environment where `perform` reports zero valid records. -/
def envZeroFx : BIEnv := ⟨none, none, 2, 0, "session-100"⟩

/-- The payload of the round-trip scenario: columns a:int64, b:float64 with
the single row (1, 2.5). -/
def dfAB : DataFrame := [⟨"a", "int64", [.other "1"]⟩, ⟨"b", "float64", [.other "2.5"]⟩]

/-- A one-column payload holding a string with an embedded single quote. -/
def dfQ : DataFrame := [⟨"s", "object", [.str ("it" ++ squote ++ "s")]⟩]

/-- A one-column payload of non-numeric, non-string dtype. -/
def dfObj : DataFrame := [⟨"c", "bool", [.other "True"]⟩]

/-- A SparkWriter holding an active session fetched with identity
(K1, E1). -/
def wActive : SparkWriter := ⟨some ⟨false⟩, "K1", "E1"⟩

/-- A Spark environment where fetch and save both succeed. -/
def sEnvOk : SparkEnv := ⟨none, none⟩

/-- A Spark environment where the engine save raises a generic
`Py4JJavaError`. -/
def sEnvErr : SparkEnv := ⟨none, some "java.lang.RuntimeException: boom"⟩

/-! ## Helper lemmas -/

/-- `saveStep` never touches the writer state. -/
theorem SparkWriter.saveStep_fst (w : SparkWriter) (t : Table) (p : String)
    (env : SparkEnv) (pre : List Call) :
    (SparkWriter.saveStep w t p env pre).1 = w := by
  rcases h : env.saveJavaErr with _ | e
  · simp [SparkWriter.saveStep, h]
  · simp only [SparkWriter.saveStep, h]
    split <;> rfl

/-- `saveStep` issues exactly the calls `pre` followed by one engine
write. -/
theorem SparkWriter.saveStep_trace (w : SparkWriter) (t : Table) (p : String)
    (env : SparkEnv) (pre : List Call) :
    (SparkWriter.saveStep w t p env pre).2.trace =
      pre ++ [.engineWrite p (t.database ++ "." ++ t.table)] := by
  rcases h : env.saveJavaErr with _ | e
  · simp [SparkWriter.saveStep, h]
  · simp only [SparkWriter.saveStep, h]
    split <;> rfl

/-- When the engine save raises, `saveStep` raises. -/
theorem SparkWriter.saveStep_err (w : SparkWriter) (t : Table) (p : String)
    (env : SparkEnv) (pre : List Call) (e : String)
    (h : env.saveJavaErr = some e) :
    (SparkWriter.saveStep w t p env pre).2.err.isSome = true := by
  simp only [SparkWriter.saveStep, h]
  split <;> rfl

/-- A commit call can only enter a `biRun` trace from its prefix or via
the positive-valid-records branch. -/
theorem BulkImportWriter.biCommit_mem_biRun (t : Table) (now : Int)
    (env : BIEnv) (pre : List Call)
    (h : (Call.biCommit true) ∈ (BulkImportWriter.biRun t now env pre).trace) :
    (Call.biCommit true) ∈ pre ∨ 0 < env.valid_records := by
  by_cases hv : 0 < env.valid_records
  · exact Or.inr hv
  · left
    rcases hu : env.uploadErr with _ | e <;>
      rcases hf : env.freezeErr with _ | f <;>
        simp_all [BulkImportWriter.biRun, hu, hf, hv]

/-! ## C1 — bulk-file writer and the `append` policy -/

/-- C1 (counterexample): calling the bulk-file writer with policy
"append" on an ABSENT table does not fail — the table is created and
the import runs to completion — so the rejection of `append` is conditional
on table existence, contrary to the claim. -/
theorem C1_counterexample :
    (BulkImportWriter.bulk_import tAbs 100 "append" envOkFx).err = none ∧
    (BulkImportWriter.bulk_import tAbs 100 "append" envOkFx).trace.head? =
      some (.tableCreate none) := by decide

/-- C1 (amended): `bulk_import` rejects policy "append" with a
ValueError (invalid-argument) exactly when the target table exists; when
the table is absent the policy is never validated — the table is created
and the bulk import proceeds, and no invalid-argument (ValueError)
failure can arise. -/
theorem C1_append_rejected_only_if_table_exists (t : Table) (now : Int)
    (env : BIEnv) :
    (t.exist = true →
      BulkImportWriter.bulk_import t now "append" env =
        ⟨[], some (.valueError "Bulk import API does not support `append`")⟩) ∧
    (t.exist = false →
      (BulkImportWriter.bulk_import t now "append" env).trace.head? =
        some (.tableCreate none) ∧
      ∀ m, (BulkImportWriter.bulk_import t now "append" env).err ≠
        some (.valueError m)) := by
  constructor
  · intro h
    simp [BulkImportWriter.bulk_import, h]
  · intro h
    rcases hu : env.uploadErr with _ | e <;>
      rcases hf : env.freezeErr with _ | f <;>
        by_cases hv : 0 < env.valid_records <;>
          simp [BulkImportWriter.bulk_import, BulkImportWriter.biRun, h, hu, hf, hv]

/-- C1 witness: the amended statement evaluated at concrete inputs. -/
theorem C1_append_witness :
    (BulkImportWriter.bulk_import tEx 100 "append" envOkFx =
      ⟨[], some (.valueError "Bulk import API does not support `append`")⟩) ∧
    (BulkImportWriter.bulk_import tAbs 100 "append" envOkFx).trace.head? =
      some (.tableCreate none) :=
  ⟨(C1_append_rejected_only_if_table_exists tEx 100 envOkFx).1 (by decide),
   ((C1_append_rejected_only_if_table_exists tAbs 100 envOkFx).2 (by decide)).1⟩

/-! ## C2 — rejection of policy strings outside the vocabulary -/

/-- C2 (counterexample): a policy string outside the four-value
vocabulary is accepted by the row-insertion and bulk-file writers when the
target table is absent: both calls return without any error. -/
theorem C2_counterexample :
    (InsertIntoWriter.insert_into tAbs [[.other "1"]] ["a"] ["bigint"] "bogus").err = none ∧
    (BulkImportWriter.bulk_import tAbs 100 "bogus" envOkFx).err = none := by decide

/-- C2 (amended): for a policy string outside {error, overwrite, append,
ignore}, the distributed-engine writer fails with an invalid-argument
ValueError unconditionally (issuing no call), while the row-insertion and
bulk-file writers do so only when the target table exists; when it is
absent they proceed without validating the policy. -/
theorem C2_invalid_policy_rejection (t : Table) (rows : List (List Py))
    (ns ts : List String) (now : Int) (env : BIEnv) (w : SparkWriter)
    (senv : SparkEnv) (p : String) (hp : validIfExists p = false) :
    (t.exist = true →
      InsertIntoWriter.insert_into t rows ns ts p =
        ⟨[], some (.valueError ("invalid valud for if_exists: " ++ p))⟩) ∧
    (t.exist = true →
      BulkImportWriter.bulk_import t now p env =
        ⟨[], some (.valueError ("invalid valud for if_exists: " ++ p))⟩) ∧
    (SparkWriter.write_dataframe w t p senv =
      (w, ⟨[], some (.valueError ("invalid valud for if_exists: " ++ p))⟩)) ∧
    (t.exist = false →
      (InsertIntoWriter.insert_into t rows ns ts p).err = none ∧
      ∀ m, (BulkImportWriter.bulk_import t now p env).err ≠
        some (.valueError m)) := by
  have h1 : p ≠ "error" := by intro hq; subst hq; simp [validIfExists] at hp
  have h2 : p ≠ "overwrite" := by intro hq; subst hq; simp [validIfExists] at hp
  have h3 : p ≠ "append" := by intro hq; subst hq; simp [validIfExists] at hp
  have h4 : p ≠ "ignore" := by intro hq; subst hq; simp [validIfExists] at hp
  refine ⟨?_, ?_, ?_, ?_⟩
  · intro hx
    simp [InsertIntoWriter.insert_into, hx, h1, h2, h3, h4]
  · intro hx
    simp [BulkImportWriter.bulk_import, hx, h1, h2, h3, h4]
  · simp [SparkWriter.write_dataframe, hp]
  · intro hx
    constructor
    · simp [InsertIntoWriter.insert_into, hx]
    · rcases hu : env.uploadErr with _ | e <;>
        rcases hf : env.freezeErr with _ | f <;>
          by_cases hv : 0 < env.valid_records <;>
            simp [BulkImportWriter.bulk_import, BulkImportWriter.biRun, hx, hu, hf, hv]

/-- C2 witness: the amended statement evaluated at concrete inputs. -/
theorem C2_invalid_policy_witness :
    (InsertIntoWriter.insert_into tEx [[.other "1"]] ["a"] ["bigint"] "bogus" =
      ⟨[], some (.valueError "invalid valud for if_exists: bogus")⟩) ∧
    (SparkWriter.write_dataframe wActive tEx "bogus" sEnvOk =
      (wActive, ⟨[], some (.valueError "invalid valud for if_exists: bogus")⟩)) :=
  ⟨(C2_invalid_policy_rejection tEx [[.other "1"]] ["a"] ["bigint"] 100 envOkFx
      wActive sEnvOk "bogus" (by decide)).1 (by decide),
   (C2_invalid_policy_rejection tEx [[.other "1"]] ["a"] ["bigint"] 100 envOkFx
      wActive sEnvOk "bogus" (by decide)).2.2.1⟩

/-! ## C3 — bulk-import session cleanup -/

/-- C3 (counterexample): when `perform` reports zero valid records, the
bulk-import session is created, the call raises, and NO `delete` is ever
issued on the session — an execution path that leaves the session
dangling, contrary to the claim. -/
theorem C3_counterexample :
    (.createBulkImport "session-100" "mydb" "mytab") ∈
      (BulkImportWriter.bulk_import tAbs 100 "error" envZeroFx).trace ∧
    (Call.biDelete) ∉ (BulkImportWriter.bulk_import tAbs 100 "error" envZeroFx).trace ∧
    (BulkImportWriter.bulk_import tAbs 100 "error" envZeroFx).err =
      some (.runtimeError "no records have been imported: session-100") := by decide

/-- C3 (amended): on an absent table (any policy), the session is deleted
before re-raising when `upload_file` or `freeze` fails, and after the
commit on the success path; but when `perform` reports zero valid records
the call raises WITHOUT deleting the session, which is left dangling. -/
theorem C3_session_cleanup (t : Table) (now : Int) (env : BIEnv) (p : String)
    (h : t.exist = false) :
    (∀ e, env.uploadErr = some e →
      BulkImportWriter.bulk_import t now p env =
        ⟨[.tableCreate none,
          .createBulkImport ("session-" ++ toString now) t.database t.table,
          .uploadFile "part" "csv", .biDelete],
         some (.runtimeError ("failed to upload file: " ++ e))⟩) ∧
    (∀ e, env.uploadErr = none → env.freezeErr = some e →
      BulkImportWriter.bulk_import t now p env =
        ⟨[.tableCreate none,
          .createBulkImport ("session-" ++ toString now) t.database t.table,
          .uploadFile "part" "csv", .freeze, .biDelete],
         some (.runtimeError ("failed to upload file: " ++ e))⟩) ∧
    (env.uploadErr = none → env.freezeErr = none → 0 < env.valid_records →
      BulkImportWriter.bulk_import t now p env =
        ⟨[.tableCreate none,
          .createBulkImport ("session-" ++ toString now) t.database t.table,
          .uploadFile "part" "csv", .freeze, .biPerform true, .biCommit true,
          .biDelete],
         none⟩) ∧
    (env.uploadErr = none → env.freezeErr = none → env.valid_records = 0 →
      BulkImportWriter.bulk_import t now p env =
        ⟨[.tableCreate none,
          .createBulkImport ("session-" ++ toString now) t.database t.table,
          .uploadFile "part" "csv", .freeze, .biPerform true],
         some (.runtimeError ("no records have been imported: " ++ env.biName))⟩ ∧
      (Call.biDelete) ∉ (BulkImportWriter.bulk_import t now p env).trace) := by
  refine ⟨?_, ?_, ?_, ?_⟩
  · intro e hu
    simp [BulkImportWriter.bulk_import, BulkImportWriter.biRun, h, hu]
  · intro e hu hf
    simp [BulkImportWriter.bulk_import, BulkImportWriter.biRun, h, hu, hf]
  · intro hu hf hv
    simp [BulkImportWriter.bulk_import, BulkImportWriter.biRun, h, hu, hf, hv]
  · intro hu hf hv
    simp [BulkImportWriter.bulk_import, BulkImportWriter.biRun, h, hu, hf, hv]

/-- C3 witness: the amended statement evaluated at concrete inputs. -/
theorem C3_session_cleanup_witness :
    BulkImportWriter.bulk_import tAbs 100 "error" envZeroFx =
      ⟨[.tableCreate none, .createBulkImport "session-100" "mydb" "mytab",
        .uploadFile "part" "csv", .freeze, .biPerform true],
       some (.runtimeError "no records have been imported: session-100")⟩ :=
  (((C3_session_cleanup tAbs 100 envZeroFx "error" (by decide)).2.2.2
    (by decide) (by decide) (by decide)).1)

/-! ## C4 — distributed-engine session lifecycle -/

/-- The trace of one `SparkWriter.write_dataframe` call is empty, one
engine write, or one fetch followed by one engine write. -/
theorem SparkWriter.write_trace_cases (w : SparkWriter) (t : Table) (p : String)
    (env : SparkEnv) :
    (SparkWriter.write_dataframe w t p env).2.trace = [] ∨
    (SparkWriter.write_dataframe w t p env).2.trace =
      [.engineWrite p (t.database ++ "." ++ t.table)] ∨
    (SparkWriter.write_dataframe w t p env).2.trace =
      [.fetchTdSpark t.client.apikey t.client.endpoint,
       .engineWrite p (t.database ++ "." ++ t.table)] := by
  obtain ⟨fe, se⟩ := env
  unfold SparkWriter.write_dataframe
  split
  · exact Or.inl rfl
  · split
    · rcases fe with _ | e
      · right; right
        rw [SparkWriter.saveStep_trace]
        rfl
      · exact Or.inl rfl
    · split
      · exact Or.inl rfl
      · right; left
        rw [SparkWriter.saveStep_trace]
        rfl

/-- When the engine save raises, `SparkWriter.write_dataframe` raises
(whatever branch was taken before the save). -/
theorem SparkWriter.write_err_of_saveErr (w : SparkWriter) (t : Table)
    (p : String) (env : SparkEnv) (e : String)
    (h : env.saveJavaErr = some e) :
    (SparkWriter.write_dataframe w t p env).2.err.isSome = true := by
  obtain ⟨fe, se⟩ := env
  replace h : se = some e := h
  subst h
  unfold SparkWriter.write_dataframe
  split
  · rfl
  · split
    · rcases fe with _ | e2
      · exact SparkWriter.saveStep_err _ _ _ _ _ e rfl
      · rfl
    · split
      · rfl
      · exact SparkWriter.saveStep_err _ _ _ _ _ e rfl

/-- C4: on one SparkWriter instance, (a) a write whose table client
carries the identity already recorded for an active session reuses it:
the state is unchanged and no fetch call is issued; (b) a write carrying
a different identity while the session is active fails with the
identity-mismatch ValueError, issues no call, and leaves the state
untouched; (c) a write when the session is absent or stopped fetches a
new session and records the incoming identity. -/
theorem C4_spark_session_lifecycle (w : SparkWriter) (t : Table) (p : String)
    (env : SparkEnv) (hp : validIfExists p = true) :
    (SparkWriter.sessionNeedsFetch w = false →
      t.client.apikey = w.fetched_apikey → t.client.endpoint = w.fetched_endpoint →
      (SparkWriter.write_dataframe w t p env).1 = w ∧
      ∀ a b, (Call.fetchTdSpark a b) ∉
        (SparkWriter.write_dataframe w t p env).2.trace) ∧
    (SparkWriter.sessionNeedsFetch w = false →
      (t.client.apikey ≠ w.fetched_apikey ∨ t.client.endpoint ≠ w.fetched_endpoint) →
      SparkWriter.write_dataframe w t p env =
        (w, ⟨[], some (.valueError mismatchMsg)⟩)) ∧
    (SparkWriter.sessionNeedsFetch w = true → env.fetchErr = none →
      (SparkWriter.write_dataframe w t p env).1 =
        ⟨some ⟨false⟩, t.client.apikey, t.client.endpoint⟩ ∧
      (SparkWriter.write_dataframe w t p env).2.trace.head? =
        some (.fetchTdSpark t.client.apikey t.client.endpoint)) := by
  refine ⟨?_, ?_, ?_⟩
  · intro hs ha he
    have hw : SparkWriter.write_dataframe w t p env =
        SparkWriter.saveStep w t p env [] := by
      simp [SparkWriter.write_dataframe, hp, hs, ha, he]
    rw [hw]
    refine ⟨SparkWriter.saveStep_fst _ _ _ _ _, ?_⟩
    intro a b
    rw [SparkWriter.saveStep_trace]
    simp
  · intro hs hne
    have hid : (t.client.apikey != w.fetched_apikey ||
        t.client.endpoint != w.fetched_endpoint) = true := by
      rcases hne with hne | hne <;> simp [hne]
    simp [SparkWriter.write_dataframe, hp, hs, hid]
  · intro hs hf
    have hw : SparkWriter.write_dataframe w t p env =
        SparkWriter.saveStep ⟨some ⟨false⟩, t.client.apikey, t.client.endpoint⟩
          t p env [.fetchTdSpark t.client.apikey t.client.endpoint] := by
      simp [SparkWriter.write_dataframe, hp, hs, hf]
    rw [hw]
    refine ⟨SparkWriter.saveStep_fst _ _ _ _ _, ?_⟩
    rw [SparkWriter.saveStep_trace]
    rfl

/-- C4 witness: the three branches evaluated at concrete inputs. -/
theorem C4_spark_session_lifecycle_witness :
    ((SparkWriter.write_dataframe wActive tEx "append" sEnvOk).1 = wActive) ∧
    (SparkWriter.write_dataframe wActive ⟨"mydb", "mytab", true, ⟨"K2", "E1"⟩⟩
        "append" sEnvOk =
      (wActive, ⟨[], some (.valueError mismatchMsg)⟩)) ∧
    ((SparkWriter.write_dataframe SparkWriter.init tEx "append" sEnvOk).2.trace.head? =
      some (.fetchTdSpark "K1" "E1")) :=
  ⟨((C4_spark_session_lifecycle wActive tEx "append" sEnvOk (by decide)).1
      (by decide) rfl rfl).1,
   (C4_spark_session_lifecycle wActive ⟨"mydb", "mytab", true, ⟨"K2", "E1"⟩⟩
      "append" sEnvOk (by decide)).2.1 (by decide) (Or.inl (by decide)),
   ((C4_spark_session_lifecycle SparkWriter.init tEx "append" sEnvOk
      (by decide)).2.2 (by decide) rfl).2⟩

/-! ## C5 — the `ignore` policy against an existing table -/

/-- C5 (counterexample): the distributed-engine writer under policy
"ignore" against an EXISTING table does return success, but it issues an
engine write call (with mode "ignore"), contrary to the claim that no
engine write call is issued for any writer variant. -/
theorem C5_counterexample :
    (SparkWriter.write_dataframe wActive tEx "ignore" sEnvOk).2.err = none ∧
    (Call.engineWrite "ignore" "mydb.mytab") ∈
      (SparkWriter.write_dataframe wActive tEx "ignore" sEnvOk).2.trace := by decide

/-- C5 (amended): under policy "ignore" against an existing table, the
row-insertion and bulk-file writers return success having issued NO call
at all; the distributed-engine writer returns success (when the engine
save succeeds on an active matching session) but delegates by issuing
exactly one engine write call with mode "ignore". -/
theorem C5_ignore_policy (t : Table) (rows : List (List Py)) (ns ts : List String)
    (now : Int) (env : BIEnv) (w : SparkWriter) (senv : SparkEnv)
    (ht : t.exist = true) :
    (InsertIntoWriter.insert_into t rows ns ts "ignore" = ⟨[], none⟩) ∧
    (BulkImportWriter.bulk_import t now "ignore" env = ⟨[], none⟩) ∧
    (SparkWriter.sessionNeedsFetch w = false →
      t.client.apikey = w.fetched_apikey → t.client.endpoint = w.fetched_endpoint →
      senv.saveJavaErr = none →
      SparkWriter.write_dataframe w t "ignore" senv =
        (w, ⟨[.engineWrite "ignore" (t.database ++ "." ++ t.table)], none⟩)) := by
  refine ⟨?_, ?_, ?_⟩
  · simp [InsertIntoWriter.insert_into, ht]
  · simp [BulkImportWriter.bulk_import, ht]
  · intro hs ha he hsv
    simp [SparkWriter.write_dataframe, validIfExists, hs, ha, he,
      SparkWriter.saveStep, hsv]

/-- C5 witness: the amended statement evaluated at concrete inputs. -/
theorem C5_ignore_policy_witness :
    (InsertIntoWriter.insert_into tEx [[.other "1"]] ["a"] ["bigint"] "ignore" =
      ⟨[], none⟩) ∧
    (SparkWriter.write_dataframe wActive tEx "ignore" sEnvOk =
      (wActive, ⟨[.engineWrite "ignore" "mydb.mytab"], none⟩)) :=
  ⟨(C5_ignore_policy tEx [[.other "1"]] ["a"] ["bigint"] 100 envOkFx wActive
      sEnvOk (by decide)).1,
   (C5_ignore_policy tEx [[.other "1"]] ["a"] ["bigint"] 100 envOkFx wActive
      sEnvOk (by decide)).2.2 (by decide) rfl rfl rfl⟩

/-! ## C6 — the `error` policy against an existing table -/

/-- C6: under policy "error" against an existing table, the row-insertion
and bulk-file writers raise the table-exists RuntimeError having issued NO
call; the distributed-engine writer (whose engine write with mode "error"
is assumed to raise on an existing table, per the engine contract) raises,
and its trace contains no table delete, no table create and no query, so
the table is not mutated. -/
theorem C6_error_policy_no_mutation (t : Table) (rows : List (List Py))
    (ns ts : List String) (now : Int) (env : BIEnv) (w : SparkWriter)
    (senv : SparkEnv) (ht : t.exist = true) :
    (InsertIntoWriter.insert_into t rows ns ts "error" =
      ⟨[], some (.runtimeError "target table already exists")⟩) ∧
    (BulkImportWriter.bulk_import t now "error" env =
      ⟨[], some (.runtimeError "target table already exists")⟩) ∧
    (∀ e, senv.saveJavaErr = some e →
      (SparkWriter.write_dataframe w t "error" senv).2.err.isSome = true ∧
      ∀ c ∈ (SparkWriter.write_dataframe w t "error" senv).2.trace,
        c ≠ .tableDelete ∧ (∀ sch, c ≠ .tableCreate sch) ∧
        (∀ q eng, c ≠ .query q eng)) := by
  refine ⟨?_, ?_, ?_⟩
  · simp [InsertIntoWriter.insert_into, ht]
  · simp [BulkImportWriter.bulk_import, ht]
  · intro e he
    refine ⟨SparkWriter.write_err_of_saveErr w t "error" senv e he, ?_⟩
    intro c hc
    rcases SparkWriter.write_trace_cases w t "error" senv with h0 | h1 | h2
    · rw [h0] at hc
      simp at hc
    · rw [h1] at hc
      simp at hc
      subst hc
      exact ⟨by simp, by simp, by simp⟩
    · rw [h2] at hc
      simp at hc
      rcases hc with hc | hc <;> subst hc <;>
        exact ⟨by simp, by simp, by simp⟩

/-- C6 witness: the statement evaluated at concrete inputs. -/
theorem C6_error_policy_witness :
    (InsertIntoWriter.insert_into tEx [[.other "1"]] ["a"] ["bigint"] "error" =
      ⟨[], some (.runtimeError "target table already exists")⟩) ∧
    (SparkWriter.write_dataframe wActive tEx "error" sEnvErr).2.err.isSome = true :=
  ⟨(C6_error_policy_no_mutation tEx [[.other "1"]] ["a"] ["bigint"] 100 envOkFx
      wActive sEnvErr (by decide)).1,
   ((C6_error_policy_no_mutation tEx [[.other "1"]] ["a"] ["bigint"] 100 envOkFx
      wActive sEnvErr (by decide)).2.2 "java.lang.RuntimeException: boom" rfl).1⟩

/-! ## C7 — commit only on positive valid-record count -/

/-- C7: in `bulk_import`, a commit call can only be issued when `perform`
reported a positive valid-record count; and when it reports zero valid
records (all remote steps succeeding, absent table so the session phase is
reached) the call raises the no-records RuntimeError and commit is never
invoked. -/
theorem C7_commit_iff_valid_records (t : Table) (now : Int) (p : String)
    (env : BIEnv) :
    ((Call.biCommit true) ∈ (BulkImportWriter.bulk_import t now p env).trace →
      0 < env.valid_records) ∧
    (t.exist = false → env.uploadErr = none → env.freezeErr = none →
      env.valid_records = 0 →
      (BulkImportWriter.bulk_import t now p env).err =
        some (.runtimeError ("no records have been imported: " ++ env.biName)) ∧
      (Call.biCommit true) ∉ (BulkImportWriter.bulk_import t now p env).trace) := by
  constructor
  · intro hmem
    unfold BulkImportWriter.bulk_import at hmem
    split at hmem
    · split at hmem
      · simp at hmem
      · split at hmem
        · simp at hmem
        · split at hmem
          · simp at hmem
          · split at hmem
            · rcases BulkImportWriter.biCommit_mem_biRun _ _ _ _ hmem with h | h
              · simp at h
              · exact h
            · simp at hmem
    · rcases BulkImportWriter.biCommit_mem_biRun _ _ _ _ hmem with h | h
      · simp at h
      · exact h
  · intro hx hu hf hv
    constructor
    · simp [BulkImportWriter.bulk_import, BulkImportWriter.biRun, hx, hu, hf, hv]
    · simp [BulkImportWriter.bulk_import, BulkImportWriter.biRun, hx, hu, hf, hv]

/-- C7 witness: both directions evaluated at concrete inputs. -/
theorem C7_commit_iff_valid_records_witness :
    0 < envOkFx.valid_records ∧
    (Call.biCommit true) ∉ (BulkImportWriter.bulk_import tAbs 100 "error" envZeroFx).trace :=
  ⟨(C7_commit_iff_valid_records tAbs 100 "error" envOkFx).1 (by decide),
   ((C7_commit_iff_valid_records tAbs 100 "error" envZeroFx).2
      (by decide) rfl rfl rfl).2⟩

/-! ## C8 — row-insertion type inference and the round-trip scenario -/

/-- The Presto type inferred by the per-column loop. -/
theorem InsertIntoWriter.processCol_snd (c : Column) :
    (InsertIntoWriter.processCol c).2 =
      (if c.dtype == "int64" then "bigint"
       else if c.dtype == "float64" then "double" else "varchar") := by
  unfold InsertIntoWriter.processCol
  by_cases h1 : c.dtype = "int64"
  · simp [h1]
  · by_cases h2 : c.dtype = "float64"
    · simp [h1, h2]
    · simp [h1, h2]

/-- The column as left by the per-column loop: unchanged when numeric,
`astype(str)`-converted otherwise. -/
theorem InsertIntoWriter.processCol_fst (c : Column) :
    (InsertIntoWriter.processCol c).1 =
      (if c.dtype == "int64" || c.dtype == "float64" then c
       else ⟨c.name, "object", c.values.map (fun v =>
         match v with
         | .str s => .str s
         | .other r => .str r)⟩) := by
  unfold InsertIntoWriter.processCol
  by_cases h1 : c.dtype = "int64"
  · simp [h1]
  · by_cases h2 : c.dtype = "float64"
    · simp [h1, h2]
    · simp [h1, h2]

/-- C8 (counterexample): on the payload [(a=1:int64, b=2.5:float64)] and
an absent table, the single INSERT issued carries the values (1.0, 2.5),
not (1, 2.5) as claimed: `dataframe.values` consolidates the mixed
int64/float64 frame to float64, upcasting the int64 cell to the Python
float 1.0 before literal rendering. -/
theorem C8_counterexample :
    (InsertIntoWriter.write_dataframe dfAB tAbs "error").2.trace ≠
      [.tableCreate (some (["a", "b"], ["bigint", "double"])),
       .query "INSERT INTO mydb.mytab (a, b) VALUES (1, 2.5)" "presto"] ∧
    (InsertIntoWriter.write_dataframe dfAB tAbs "error").2.trace =
      [.tableCreate (some (["a", "b"], ["bigint", "double"])),
       .query "INSERT INTO mydb.mytab (a, b) VALUES (1.0, 2.5)" "presto"] := by decide

/-- C8 (amended): on an absent table, `InsertIntoWriter.write_dataframe`
creates the table with destination types inferred as int64 → bigint,
float64 → double and anything else → varchar; on the payload
[(a=1:int64, b=2.5:float64)] it creates a:bigint, b:double and issues
exactly one INSERT with values (1.0, 2.5) — the int64 cell upcast to a
float by the frame's common-dtype consolidation; and a string cell is
rendered single-quoted with its embedded single quote rewritten to a
double quote. -/
theorem C8_insert_type_inference (df : DataFrame) (t : Table)
    (ht : t.exist = false) :
    ((InsertIntoWriter.write_dataframe df t "error").2.trace.head? =
      some (.tableCreate (some (df.map Column.name,
        df.map (fun c => if c.dtype == "int64" then "bigint"
          else if c.dtype == "float64" then "double" else "varchar"))))) ∧
    (InsertIntoWriter.write_dataframe dfAB tAbs "error" =
      (dfAB, ⟨[.tableCreate (some (["a", "b"], ["bigint", "double"])),
        .query "INSERT INTO mydb.mytab (a, b) VALUES (1.0, 2.5)" "presto"], none⟩)) ∧
    ((InsertIntoWriter.write_dataframe dfQ tAbs "error").2.trace =
      [.tableCreate (some (["s"], ["varchar"])),
       .query ("INSERT INTO mydb.mytab (s) VALUES ("
         ++ squote ++ "it" ++ dquote ++ "s" ++ squote ++ ")") "presto"]) := by
  refine ⟨?_, by decide, by decide⟩
  have hmap : ∀ (l : DataFrame), (l.map InsertIntoWriter.processCol).map Prod.snd =
      l.map (fun c => if c.dtype == "int64" then "bigint"
        else if c.dtype == "float64" then "double" else "varchar") := by
    intro l
    rw [List.map_map]
    congr 1
    funext c
    simpa using InsertIntoWriter.processCol_snd c
  simp [InsertIntoWriter.write_dataframe, InsertIntoWriter.insert_into, ht, hmap]

/-- C8 witness: the general conjunct evaluated at a concrete input. -/
theorem C8_insert_type_inference_witness :
    (InsertIntoWriter.write_dataframe [⟨"c", "bool", [.other "True"]⟩] tAbs
        "error").2.trace.head? =
      some (.tableCreate (some (["c"], ["varchar"]))) :=
  (C8_insert_type_inference [⟨"c", "bool", [.other "True"]⟩] tAbs (by decide)).1

/-! ## C9 — time-column injection by the bulk-file writer -/

/-- C9: `BulkImportWriter.write_dataframe` appends a `time` column
holding the current unix time exactly when the payload has no column of
that name; a payload already carrying one is passed on unchanged. -/
theorem C9_time_column_injection (df : DataFrame) (now : Int) (t : Table)
    (p : String) (env : BIEnv) :
    (df.any (fun c => c.name == "time") = true →
      (BulkImportWriter.write_dataframe df now t p env).1 = df) ∧
    (df.any (fun c => c.name == "time") = false →
      (BulkImportWriter.write_dataframe df now t p env).1 =
        df ++ [⟨"time", "int64", List.replicate (nrows df) (.other (toString now))⟩]) := by
  constructor <;> intro h <;> simp [BulkImportWriter.write_dataframe, h]

/-- C9 witness: both cases evaluated at concrete inputs. -/
theorem C9_time_column_injection_witness :
    ((BulkImportWriter.write_dataframe [⟨"time", "int64", [.other "42"]⟩] 100 tAbs
        "error" envOkFx).1 = [⟨"time", "int64", [.other "42"]⟩]) ∧
    ((BulkImportWriter.write_dataframe dfAB 100 tAbs "error" envOkFx).1 =
      dfAB ++ [⟨"time", "int64",
        List.replicate (nrows dfAB) (.other (toString (100 : Int)))⟩]) :=
  ⟨(C9_time_column_injection [⟨"time", "int64", [.other "42"]⟩] 100 tAbs "error"
      envOkFx).1 (by decide),
   (C9_time_column_injection dfAB 100 tAbs "error" envOkFx).2 (by decide)⟩

/-! ## C10 — in-place mutation of the payload -/

/-- C10: the payload object as left after `write_dataframe` is not the
payload passed in: the row-insertion writer reassigns every column whose
dtype is neither int64 nor float64 to its stringified form (others
untouched), so a payload with such a column comes back changed; and the
bulk-file writer, on a payload without a `time` column, returns a payload
differing from its input (the appended `time` column). -/
theorem C10_payload_mutation (df : DataFrame) (t : Table) (p : String)
    (now : Int) (t2 : Table) (p2 : String) (env : BIEnv) :
    ((InsertIntoWriter.write_dataframe df t p).1 =
      df.map (fun c =>
        if c.dtype == "int64" || c.dtype == "float64" then c
        else ⟨c.name, "object", c.values.map (fun v =>
          match v with
          | .str s => .str s
          | .other r => .str r)⟩)) ∧
    ((InsertIntoWriter.write_dataframe dfObj tAbs "error").1 ≠ dfObj) ∧
    (df.any (fun c => c.name == "time") = false →
      (BulkImportWriter.write_dataframe df now t2 p2 env).1 ≠ df) := by
  refine ⟨?_, by decide, ?_⟩
  · show (df.map InsertIntoWriter.processCol).map Prod.fst = _
    rw [List.map_map]
    congr 1
    funext c
    simpa using InsertIntoWriter.processCol_fst c
  · intro h
    have hshape : (BulkImportWriter.write_dataframe df now t2 p2 env).1 =
        df ++ [⟨"time", "int64", List.replicate (nrows df) (.other (toString now))⟩] := by
      simp [BulkImportWriter.write_dataframe, h]
    rw [hshape]
    intro heq
    have hlen := congrArg List.length heq
    simp at hlen

/-- C10 witness: the general conjuncts evaluated at concrete inputs. -/
theorem C10_payload_mutation_witness :
    ((InsertIntoWriter.write_dataframe dfObj tAbs "error").1 =
      dfObj.map (fun c =>
        if c.dtype == "int64" || c.dtype == "float64" then c
        else ⟨c.name, "object", c.values.map (fun v =>
          match v with
          | .str s => .str s
          | .other r => .str r)⟩)) ∧
    ((BulkImportWriter.write_dataframe dfAB 100 tAbs "error" envOkFx).1 ≠ dfAB) :=
  ⟨(C10_payload_mutation dfObj tAbs "error" 100 tAbs "error" envOkFx).1,
   (C10_payload_mutation dfAB tAbs "error" 100 tAbs "error" envOkFx).2.2 (by decide)⟩
